import Mathlib

/-!
Shallow embedding of the terminal master-detail preview engine of
jasonjckn/jira-cli (pkg/tui/preview.go), together with theorems checking the
natural-language specification of that subsystem against the code.

The widget layer (tview) is opaque: we record every call the preview code
makes into the widget layer as an explicit effect, in program order.  Pure
helper functions living in other files of the same package (pad, splitText,
renderTableHeader, renderTableCell) are modelled from the spec, as marked on
each definition.
-/

namespace JiraTui

/-- TableData is the tabular payload type of pkg/tui/table.go (its declaration
is outside src): an ordered sequence of rows of string cells, first row the
header. -/
abbrev TableData := List (List String)

/-- Dynamic value returned by a content producer.  In Go the producer has type
`func(string) interface\x7b\x7d`; `renderContents` type-switches on `string` and
`TableData`, so the embedding is a tagged union with a third tag `other` for
every dynamic value that is neither a string nor a TableData. -/
inductive ContentVal where
  | str (s : String)
  | table (rows : TableData)
  | other

/-- PreviewData mirrors the struct of pkg/tui/preview.go: a sidebar entry with
its key, its menu label, and its optional content producer.  The spec states
the producer is a pure function, so it is embedded as a Lean function. -/
structure PreviewData where
  Key : String
  Menu : String
  Contents : Option (String → ContentVal)

/-- Preview holds the configuration fields of the Preview struct that the
rendering logic reads (initialText via WithInitialText, footerText via
WithPreviewFooterText). -/
structure Preview where
  initialText : String
  footerText : String

/-- sidebarMaxWidth mirrors the constant of pkg/tui/preview.go. -/
def sidebarMaxWidth : Nat := 60

/-- One widget mutation of the content pane: Clear, SetCell of a text cell,
or a Grid Renderer call.  indexOutOfRange records the runtime panic Go would
raise at `data[0]` on an empty table. -/
inductive PaneEffect where
  | clearContents
  | setContentCell (row : Nat) (text : String)
  | setGridHeader (row : List String)
  | setGridBody (rows : TableData)
  | indexOutOfRange
deriving DecidableEq

/-- One call the preview code makes into the widget layer, in program order.
`pane e` is a direct mutation of the content pane on the calling thread;
`queued es` is a single `screen.QueueUpdateDraw(closure)` call whose closure
performs the pane mutations `es` on the event-loop thread. -/
inductive Effect where
  | pane (e : PaneEffect)
  | queued (es : List PaneEffect)
  | setSidebarCell (row : Nat) (text : String) (maxWidth : Nat) (bold : Bool)
  | setSelectionHandler
  | spawnFetch (row : Nat)
  | paint
deriving DecidableEq

/-- Modelled from the spec: `pad` lives in pkg/tui (outside src); per spec
section 4.2 every cell is left-padded by `n` characters. -/
def pad (s : String) (n : Nat) : String :=
  (List.replicate n ' ').asString ++ s

/-- Splits a character list at newline characters. -/
def splitLines : List Char → List (List Char)
  | [] => [[]]
  | c :: cs =>
      if c = '\n' then [] :: splitLines cs
      else
        match splitLines cs with
        | [] => [[c]]
        | l :: ls => (c :: l) :: ls

/-- Modelled from the spec: `splitText` lives in pkg/tui (outside src); per
spec section 4.3 text content is painted as its individual lines. -/
def splitText (s : String) : List String :=
  (splitLines s.data).map List.asString

/-- printText mirrors pkg/tui/preview.go lines 177-185: write line i of the
text, left-padded by one character, into cell (i, 0) of the content pane. -/
def printText (s : String) : List PaneEffect :=
  (splitText s).enum.map fun p => PaneEffect.setContentCell p.1 (pad p.2 1)

/-- Modelled from the spec: `renderTableHeader` lives in pkg/tui/table.go
(outside src); per spec section 4.3 it installs the given row as the grid
header. -/
def renderTableHeader (row : List String) : PaneEffect :=
  PaneEffect.setGridHeader row

/-- Modelled from the spec: `renderTableCell` lives in pkg/tui/table.go
(outside src); per spec section 4.3 it installs rows 1..N-1 of the data as
the grid body. -/
def renderTableCell (data : TableData) : PaneEffect :=
  PaneEffect.setGridBody (data.drop 1)

/-- renderContentsT mirrors `renderContents` of pkg/tui/preview.go lines
148-175, returning both the effect trace of one fetch-task execution and the
number of evaluations of `pd.Contents(pd.Key)` on that path.  The Go code
evaluates the producer once in the type switch, and, in the TableData case, a
second time inside the QueueUpdateDraw closure (the inner match models the
`.(TableData)` type assertion, which cannot fail because the producer is a
pure function). -/
def renderContentsT (pd : PreviewData) : List Effect × Nat :=
  match pd.Contents with
  | none => ((printText "No contents defined.").map Effect.pane, 0)
  | some produce =>
      match produce pd.Key with
      | ContentVal.str v => ((printText v).map Effect.pane, 1)
      | ContentVal.table _ =>
          let data : TableData :=
            match produce pd.Key with
            | ContentVal.table t => t
            | _ => []
          ([Effect.queued
              (PaneEffect.clearContents ::
                (if data.length = 1 then
                  printText "No results to show."
                else
                  match data with
                  | [] => [PaneEffect.indexOutOfRange]
                  | headerRow :: _ => [renderTableHeader headerRow, renderTableCell data]))],
            2)
      | ContentVal.other => ([], 1)

/-- The effect trace of one fetch-task execution (`go pv.renderContents(pd[r])`). -/
def renderContents (pd : PreviewData) : List Effect :=
  (renderContentsT pd).1

/-- How many times one fetch-task execution evaluates `pd.Contents(pd.Key)`. -/
def produceCalls (pd : PreviewData) : Nat :=
  (renderContentsT pd).2

/-- onSelectionChanged mirrors the SetSelectionChangedFunc closure of
pkg/tui/preview.go lines 135-140: clear the content pane, paint the loading
placeholder, then spawn the fetch goroutine for the selected row. -/
def onSelectionChanged (_pd : List PreviewData) (r : Nat) : List Effect :=
  Effect.pane PaneEffect.clearContents ::
    ((printText "Loading...").map Effect.pane ++ [Effect.spawnFetch r])

/-- The typed error of `Render` on an empty entry sequence (errNoData of
pkg/tui, outside src; the spec calls it the empty-data error). -/
inductive RenderError where
  | noData
deriving DecidableEq

/-- One iteration of the sidebar population loop of `Render` (lines 123-141):
set cell (i, 0) to the padded menu label, capped at sidebarMaxWidth, bold
exactly on row 0, and (re)install the selection-changed handler. -/
def sidebarRow (i : Nat) (d : PreviewData) : List Effect :=
  [Effect.setSidebarCell i (pad d.Menu 1) sidebarMaxWidth (i == 0),
   Effect.setSelectionHandler]

/-- Render mirrors `Render` of pkg/tui/preview.go lines 118-146: an empty
entry sequence returns errNoData with no effects; otherwise the sidebar is
populated, the initial text is painted, and the blocking `screen.Paint` call
is entered.  The error component `none` stands for whatever the blocking
Paint call returns. -/
def Render (pv : Preview) (pd : List PreviewData) : List Effect × Option RenderError :=
  if pd.length = 0 then
    ([], some RenderError.noData)
  else
    ((pd.enum.map fun p => sidebarRow p.1 p.2).flatten ++
       ((printText pv.initialText).map Effect.pane ++ [Effect.paint]),
     none)

/-- The observable state of the content pane: its text cells in column 0
(index-addressed, absent cells `none`), and the grid header and body installed
via the Grid Renderer. -/
structure ContentPane where
  cells : List (Option String)
  header : Option (List String)
  body : TableData
deriving DecidableEq

/-- Write cell `i`, extending the cell column with empty cells as needed. -/
def setCellList (cells : List (Option String)) (i : Nat) (s : String) : List (Option String) :=
  (cells ++ List.replicate (i + 1 - cells.length) none).set i (some s)

/-- Semantics of one content-pane mutation. -/
def applyPaneEffect (pane : ContentPane) : PaneEffect → ContentPane
  | PaneEffect.clearContents => ⟨[], none, []⟩
  | PaneEffect.setContentCell i s => ⟨setCellList pane.cells i s, pane.header, pane.body⟩
  | PaneEffect.setGridHeader row => ⟨pane.cells, some row, pane.body⟩
  | PaneEffect.setGridBody rows => ⟨pane.cells, pane.header, rows⟩
  | PaneEffect.indexOutOfRange => pane

/-- Semantics of one effect on the content pane.  A `queued` closure runs its
pane mutations on the event-loop thread; sidebar and control effects leave the
content pane unchanged. -/
def applyEffect (pane : ContentPane) : Effect → ContentPane
  | Effect.pane e => applyPaneEffect pane e
  | Effect.queued es => es.foldl applyPaneEffect pane
  | Effect.setSidebarCell _ _ _ _ => pane
  | Effect.setSelectionHandler => pane
  | Effect.spawnFetch _ => pane
  | Effect.paint => pane

/-- Run a whole effect trace over the content pane. -/
def applyEffects (pane : ContentPane) (es : List Effect) : ContentPane :=
  es.foldl applyEffect pane

/-- The default PreviewData used to total out-of-range indexing in the model. -/
def emptyPreviewData : PreviewData :=
  ⟨"", "", none⟩

/-- The observable effect sequence of one complete selection event on row `r`:
the selection-changed handler runs on the loop thread, then the spawned fetch
task for `pd[r]` runs to completion (the one interleaving of a single event). -/
def selectionEventEffects (pd : List PreviewData) (r : Nat) : List Effect :=
  onSelectionChanged pd r ++ renderContents (pd.getD r emptyPreviewData)

/-- The two panes of the preview layout. -/
inductive PaneId where
  | sidebar
  | contents
deriving DecidableEq

/-- handleW mirrors the rune-w branch of the SetInputCapture closure installed
by `initLayout` (pkg/tui/preview.go lines 82-98) on the view/nextView pair:
if `view` has focus, focus moves to `nextView`, else to `view`. -/
def handleW (view nextView : PaneId) (focus : PaneId) : PaneId :=
  if focus = view then nextView else view

/-- pressW dispatches one press of the focus-toggle key: the input capture of
the focused view runs; initLayout is installed as (sidebar, contents) and
(contents, sidebar) in NewPreview (lines 67-68). -/
def pressW (focus : PaneId) : PaneId :=
  match focus with
  | PaneId.sidebar => handleW PaneId.sidebar PaneId.contents focus
  | PaneId.contents => handleW PaneId.contents PaneId.sidebar focus

/-- Extracts a sidebar cell effect as (row, text, bold). -/
def sidebarCellOf : Effect → Option (Nat × String × Bool)
  | Effect.setSidebarCell i s _ b => some (i, s, b)
  | _ => none

/-- All sidebar cells written by a trace, in order. -/
def sidebarCellsOf (es : List Effect) : List (Nat × String × Bool) :=
  es.filterMap sidebarCellOf

/-- Extracts the row of a spawned fetch task. -/
def spawnOf : Effect → Option Nat
  | Effect.spawnFetch r => some r
  | _ => none

/-- The rows for which a trace spawns fetch tasks, in order. -/
def spawnsOf (es : List Effect) : List Nat :=
  es.filterMap spawnOf

/-- Extracts a blocking paint call. -/
def paintOf : Effect → Option Unit
  | Effect.paint => some ()
  | _ => none

/-- The blocking paint calls of a trace. -/
def paintsOf (es : List Effect) : List Unit :=
  es.filterMap paintOf

/-- Extracts the closure body of a QueueUpdateDraw call. -/
def queuedOf : Effect → Option (List PaneEffect)
  | Effect.queued es => some es
  | _ => none

/-- The QueueUpdateDraw calls of a trace, each with its closure body. -/
def queuedsOf (es : List Effect) : List (List PaneEffect) :=
  es.filterMap queuedOf

/-- The direct (off-loop) content-pane mutations of a trace. -/
def directPaneOf : Effect → Option PaneEffect
  | Effect.pane e => some e
  | _ => none

/-- All direct content-pane mutations of a trace, in order. -/
def directPanesOf (es : List Effect) : List PaneEffect :=
  es.filterMap directPaneOf

/-- pressing the focus-toggle key twice returns focus to the starting pane. -/
theorem pressW_pressW (f : PaneId) : pressW (pressW f) = f := by
  cases f <;> rfl

/-- A filterMap that ignores direct pane effects yields nothing on a mapped
pane-effect list. -/
theorem filterMap_pane_none {β : Type} (g : Effect → Option β)
    (h : ∀ pe, g (Effect.pane pe) = none) (l : List PaneEffect) :
    (l.map Effect.pane).filterMap g = [] := by
  induction l with
  | nil => rfl
  | cons pe l ih => simp [List.filterMap_cons, h, ih]

/-- A filterMap that ignores sidebar cells and handler installs yields nothing
on a flattened sidebar-population block. -/
theorem filterMap_sidebarRows_none {β : Type} (g : Effect → Option β)
    (h1 : ∀ i s w b, g (Effect.setSidebarCell i s w b) = none)
    (h2 : g Effect.setSelectionHandler = none) (l : List (Nat × PreviewData)) :
    ((l.map fun p => sidebarRow p.1 p.2).flatten).filterMap g = [] := by
  induction l with
  | nil => rfl
  | cons p l ih =>
      simp [List.flatten_cons, sidebarRow, List.filterMap_append, List.filterMap_cons, h1, h2, ih]

/-- The sidebar cells of a flattened sidebar-population block are exactly the
padded labels with the bold flag on index 0. -/
theorem sidebarCellsOf_sidebarRows (l : List (Nat × PreviewData)) :
    ((l.map fun p => sidebarRow p.1 p.2).flatten).filterMap sidebarCellOf
      = l.map fun p => (p.1, pad p.2.Menu 1, p.1 == 0) := by
  induction l with
  | nil => rfl
  | cons p l ih =>
      simp only [List.map_cons, List.flatten_cons, List.filterMap_append, ih]
      rfl

/-- C4: Render applied to an empty entry sequence fails with the typed no-data
error and performs no effects at all: no sidebar population, no initial text,
and no entry into the blocking paint call. -/
theorem render_empty_no_paint (pv : Preview) :
    Render pv [] = ([], some RenderError.noData) := rfl

/-- C9: applying the focus-toggle key an even number of times returns keyboard
focus to the pane that originally had it; the toggle dispatched through the
input captures installed by initLayout is a binary swap of the two panes. -/
theorem toggle_focus_even (f : PaneId) (n : Nat) : pressW^[2 * n] f = f := by
  induction n with
  | zero => rfl
  | succ k ih =>
      have h2 : 2 * (k + 1) = 2 * k + 2 := by ring
      rw [h2, Function.iterate_add_apply]
      rw [show pressW^[2] f = f from pressW_pressW f]
      exact ih

/-- C3 counterexample: on a concrete selection the handler paints the padded
ASCII literal "Loading..." (three full stops), and that text differs from the
claimed literal with the Unicode horizontal-ellipsis character, so the claim
as stated fails: no "Loading…" placeholder is ever painted. -/
theorem loading_literal_cex :
    onSelectionChanged [⟨"K1", "Bug list", none⟩] 0
        = [Effect.pane PaneEffect.clearContents,
           Effect.pane (PaneEffect.setContentCell 0 (pad "Loading..." 1)),
           Effect.spawnFetch 0] ∧
    pad "Loading..." 1 ≠ pad "Loading…" 1 := by
  exact ⟨by decide, by decide⟩

/-- C3 (amended): for every selection of sidebar row r, the handler
synchronously clears the content pane and paints the literal "Loading..."
placeholder strictly before the fetch task for that selection is dispatched;
the pane state visible at dispatch time is exactly the loading placeholder. -/
theorem loading_before_fetch (pd : List PreviewData) (r : Nat) :
    onSelectionChanged pd r
        = [Effect.pane PaneEffect.clearContents,
           Effect.pane (PaneEffect.setContentCell 0 (pad "Loading..." 1)),
           Effect.spawnFetch r] ∧
    ∀ pane : ContentPane,
      applyEffects pane ((onSelectionChanged pd r).take 2)
        = ⟨[some (pad "Loading..." 1)], none, []⟩ := by
  exact ⟨rfl, fun pane => rfl⟩

/-- C1: code bug — for a selected entry whose producer returns plain text, the
fetch task mutates the content pane directly from the background goroutine:
its trace is one direct SetCell and contains no QueueUpdateDraw call at all,
contradicting the invariant that a background task's only side effect on
widget state is a single thread-safe redraw scheduling call. -/
theorem fetch_task_direct_mutation_bug :
    renderContents ⟨"ISSUE-1", "Bug list", some fun _ => ContentVal.str "hello"⟩
        = [Effect.pane (PaneEffect.setContentCell 0 (pad "hello" 1))] ∧
    queuedsOf (renderContents ⟨"ISSUE-1", "Bug list", some fun _ => ContentVal.str "hello"⟩) = [] ∧
    directPanesOf (renderContents ⟨"ISSUE-1", "Bug list", some fun _ => ContentVal.str "hello"⟩)
        = [PaneEffect.setContentCell 0 (pad "hello" 1)] := by
  exact ⟨by decide, by decide, by decide⟩

/-- C2 counterexample: a producer returning a two-row table is invoked exactly
twice during the resulting fetch-task execution (once in the type switch and
once inside the queued redraw closure), so it is not invoked at most once per
selection event. -/
theorem contents_called_twice_cex :
    produceCalls ⟨"K1", "Bug list", some fun _ => ContentVal.table [["ID", "Summary"], ["1", "Fix X"]]⟩ = 2 ∧
    ¬ produceCalls ⟨"K1", "Bug list", some fun _ => ContentVal.table [["ID", "Summary"], ["1", "Fix X"]]⟩ ≤ 1 := by
  exact ⟨by decide, by decide⟩

/-- C2 (amended): the caller-supplied producer is invoked at most twice per
selection event (twice exactly when its result is a table, once otherwise),
and it is never invoked eagerly for entries that were not selected: a
selection event on row r dispatches exactly one fetch task, for row r, and
the initial Render dispatches no fetch task at all. -/
theorem contents_invocation_bound :
    (∀ pd : PreviewData, produceCalls pd ≤ 2) ∧
    (∀ (l : List PreviewData) (r : Nat), spawnsOf (onSelectionChanged l r) = [r]) ∧
    (∀ (pv : Preview) (l : List PreviewData), spawnsOf (Render pv l).1 = []) := by
  refine ⟨?_, ?_, ?_⟩
  · intro pd
    unfold produceCalls renderContentsT
    cases pd.Contents with
    | none => simp
    | some f => cases hf : f pd.Key <;> simp [hf]
  · intro l r
    rfl
  · intro pv l
    by_cases hl : l.length = 0
    · simp [Render, hl, spawnsOf]
    · simp only [Render, if_neg hl, spawnsOf, List.filterMap_append]
      rw [filterMap_sidebarRows_none spawnOf (fun i s w b => rfl) rfl,
          filterMap_pane_none spawnOf (fun pe => rfl)]
      rfl

/-- C5: for every non-empty entry sequence, Render succeeds and its trace is
some prefix followed by the single blocking paint call; the sidebar cells of
that prefix are exactly one row per entry, in input order, holding the padded
entry labels, with the bold style exactly on row 0. -/
theorem render_sidebar_rows (pv : Preview) (pd : List PreviewData) (h : pd ≠ []) :
    ∃ pre : List Effect,
      Render pv pd = (pre ++ [Effect.paint], none) ∧
      sidebarCellsOf pre = (pd.enum.map fun p => (p.1, pad p.2.Menu 1, p.1 == 0)) ∧
      (sidebarCellsOf pre).length = pd.length ∧
      paintsOf pre = [] := by
  have hl : ¬ pd.length = 0 := by
    simpa [List.length_eq_zero] using h
  refine ⟨(pd.enum.map fun p => sidebarRow p.1 p.2).flatten ++
            (printText pv.initialText).map Effect.pane, ?_, ?_, ?_, ?_⟩
  · simp [Render, hl, List.append_assoc]
  · unfold sidebarCellsOf
    rw [List.filterMap_append, sidebarCellsOf_sidebarRows,
        filterMap_pane_none sidebarCellOf (fun pe => rfl), List.append_nil]
  · unfold sidebarCellsOf
    rw [List.filterMap_append, sidebarCellsOf_sidebarRows,
        filterMap_pane_none sidebarCellOf (fun pe => rfl), List.append_nil]
    simp [List.enum_length]
  · unfold paintsOf
    rw [List.filterMap_append,
        filterMap_sidebarRows_none paintOf (fun i s w b => rfl) rfl,
        filterMap_pane_none paintOf (fun pe => rfl)]
    rfl

/-- C5 witness: the sidebar property evaluated on a concrete two-entry
sequence. -/
theorem render_sidebar_rows_witness :
    ([⟨"K1", "Bug list", none⟩, ⟨"K2", "Empty", none⟩] : List PreviewData) ≠ [] ∧
    ∃ pre : List Effect,
      Render ⟨"", ""⟩ [⟨"K1", "Bug list", none⟩, ⟨"K2", "Empty", none⟩] = (pre ++ [Effect.paint], none) ∧
      sidebarCellsOf pre
        = (([⟨"K1", "Bug list", none⟩, ⟨"K2", "Empty", none⟩] : List PreviewData).enum.map
            fun p => (p.1, pad p.2.Menu 1, p.1 == 0)) ∧
      (sidebarCellsOf pre).length = ([⟨"K1", "Bug list", none⟩, ⟨"K2", "Empty", none⟩] : List PreviewData).length ∧
      paintsOf pre = [] :=
  ⟨List.cons_ne_nil _ _,
   render_sidebar_rows ⟨"", ""⟩ [⟨"K1", "Bug list", none⟩, ⟨"K2", "Empty", none⟩] (List.cons_ne_nil _ _)⟩

/-- C6: when a selected entry's producer returns a table with exactly one row,
the queued redraw clears the pane and paints the literal "No results to show."
placeholder, and the resulting content pane holds only that placeholder with
no grid header and no grid body, whatever state the pane was in. -/
theorem table_single_row (pd : PreviewData) (f : String → ContentVal) (rows : TableData)
    (hc : pd.Contents = some f) (hf : f pd.Key = ContentVal.table rows)
    (h1 : rows.length = 1) :
    renderContents pd
        = [Effect.queued [PaneEffect.clearContents,
            PaneEffect.setContentCell 0 (pad "No results to show." 1)]] ∧
    ∀ pane : ContentPane,
      applyEffects pane (renderContents pd)
        = ⟨[some (pad "No results to show." 1)], none, []⟩ := by
  have ht : renderContents pd
      = [Effect.queued [PaneEffect.clearContents,
          PaneEffect.setContentCell 0 (pad "No results to show." 1)]] := by
    simp only [renderContents, renderContentsT, hc, hf, h1]
    rfl
  exact ⟨ht, fun pane => by rw [applyEffects, ht]; rfl⟩

/-- C6 witness: the one-row table scenario of the spec, evaluated. -/
theorem table_single_row_witness :
    renderContents ⟨"K2", "Empty", some fun _ => ContentVal.table [["ID", "Summary"]]⟩
        = [Effect.queued [PaneEffect.clearContents,
            PaneEffect.setContentCell 0 (pad "No results to show." 1)]] ∧
    applyEffects ⟨[], none, []⟩
        (renderContents ⟨"K2", "Empty", some fun _ => ContentVal.table [["ID", "Summary"]]⟩)
        = ⟨[some (pad "No results to show." 1)], none, []⟩ :=
  ⟨(table_single_row ⟨"K2", "Empty", some fun _ => ContentVal.table [["ID", "Summary"]]⟩
      (fun _ => ContentVal.table [["ID", "Summary"]]) [["ID", "Summary"]] rfl rfl rfl).1,
   (table_single_row ⟨"K2", "Empty", some fun _ => ContentVal.table [["ID", "Summary"]]⟩
      (fun _ => ContentVal.table [["ID", "Summary"]]) [["ID", "Summary"]] rfl rfl rfl).2 ⟨[], none, []⟩⟩

/-- C7: when a selected entry's producer returns a table with at least two
rows, the queued redraw clears the pane and renders a grid whose header is
row 0 of the table and whose body is exactly rows 1..N-1 in order, with no
extra or duplicated rows and no placeholder text, whatever state the pane was
in. -/
theorem table_multi_row (pd : PreviewData) (f : String → ContentVal)
    (r0 r1 : List String) (rest : TableData)
    (hc : pd.Contents = some f) (hf : f pd.Key = ContentVal.table (r0 :: r1 :: rest)) :
    renderContents pd
        = [Effect.queued [PaneEffect.clearContents,
            PaneEffect.setGridHeader r0, PaneEffect.setGridBody (r1 :: rest)]] ∧
    ∀ pane : ContentPane,
      applyEffects pane (renderContents pd) = ⟨[], some r0, r1 :: rest⟩ := by
  have ht : renderContents pd
      = [Effect.queued [PaneEffect.clearContents,
          PaneEffect.setGridHeader r0, PaneEffect.setGridBody (r1 :: rest)]] := by
    simp only [renderContents, renderContentsT, hc, hf]
    rw [if_neg (by simp)]
    rfl
  exact ⟨ht, fun pane => by rw [applyEffects, ht]; rfl⟩

/-- C7 witness: the two-row table scenario of the spec, evaluated. -/
theorem table_multi_row_witness :
    renderContents ⟨"K1", "Bug list", some fun _ => ContentVal.table [["ID", "Summary"], ["1", "Fix X"]]⟩
        = [Effect.queued [PaneEffect.clearContents,
            PaneEffect.setGridHeader ["ID", "Summary"], PaneEffect.setGridBody [["1", "Fix X"]]]] ∧
    applyEffects ⟨[], none, []⟩
        (renderContents ⟨"K1", "Bug list", some fun _ => ContentVal.table [["ID", "Summary"], ["1", "Fix X"]]⟩)
        = ⟨[], some ["ID", "Summary"], [["1", "Fix X"]]⟩ :=
  ⟨(table_multi_row ⟨"K1", "Bug list", some fun _ => ContentVal.table [["ID", "Summary"], ["1", "Fix X"]]⟩
      (fun _ => ContentVal.table [["ID", "Summary"], ["1", "Fix X"]])
      ["ID", "Summary"] ["1", "Fix X"] [] rfl rfl).1,
   (table_multi_row ⟨"K1", "Bug list", some fun _ => ContentVal.table [["ID", "Summary"], ["1", "Fix X"]]⟩
      (fun _ => ContentVal.table [["ID", "Summary"], ["1", "Fix X"]])
      ["ID", "Summary"] ["1", "Fix X"] [] rfl rfl).2 ⟨[], none, []⟩⟩

/-- C8: for a selected entry whose producer is nil, the fetch task paints the
literal "No contents defined." placeholder (the model is a total function, so
this path cannot crash), and after the whole selection event the content pane
shows exactly that placeholder, with no grid. -/
theorem nil_producer_placeholder (pd : PreviewData) (hc : pd.Contents = none)
    (l : List PreviewData) (r : Nat) (hr : l.getD r emptyPreviewData = pd)
    (pane : ContentPane) :
    renderContents pd = [Effect.pane (PaneEffect.setContentCell 0 (pad "No contents defined." 1))] ∧
    applyEffects pane (selectionEventEffects l r)
        = ⟨[some (pad "No contents defined." 1)], none, []⟩ := by
  have ht : renderContents pd
      = [Effect.pane (PaneEffect.setContentCell 0 (pad "No contents defined." 1))] := by
    simp only [renderContents, renderContentsT, hc]
    rfl
  refine ⟨ht, ?_⟩
  unfold selectionEventEffects applyEffects
  rw [hr, List.foldl_append, ht]
  rfl

/-- C8 witness: a concrete nil-producer entry selected on row 0. -/
theorem nil_producer_placeholder_witness :
    renderContents ⟨"K1", "Bug list", none⟩
        = [Effect.pane (PaneEffect.setContentCell 0 (pad "No contents defined." 1))] ∧
    applyEffects ⟨[], none, []⟩ (selectionEventEffects [⟨"K1", "Bug list", none⟩] 0)
        = ⟨[some (pad "No contents defined." 1)], none, []⟩ :=
  nil_producer_placeholder ⟨"K1", "Bug list", none⟩ rfl [⟨"K1", "Bug list", none⟩] 0 rfl ⟨[], none, []⟩

/-- C10: for a selected entry whose producer returns a value that is neither a
string nor a TableData, the fetch task performs no effect at all, so after the
whole selection event the content pane still shows exactly the "Loading..."
placeholder painted at selection time. -/
theorem unknown_content_keeps_loading (pd : PreviewData) (f : String → ContentVal)
    (hc : pd.Contents = some f) (ho : f pd.Key = ContentVal.other)
    (l : List PreviewData) (r : Nat) (hr : l.getD r emptyPreviewData = pd)
    (pane : ContentPane) :
    renderContents pd = [] ∧
    applyEffects pane (selectionEventEffects l r)
        = ⟨[some (pad "Loading..." 1)], none, []⟩ := by
  have ht : renderContents pd = [] := by
    simp only [renderContents, renderContentsT, hc, ho]
  refine ⟨ht, ?_⟩
  unfold selectionEventEffects applyEffects
  rw [hr, List.foldl_append, ht]
  rfl

/-- C10 witness: a concrete entry whose producer returns an untagged value. -/
theorem unknown_content_keeps_loading_witness :
    renderContents ⟨"K1", "Bug list", some fun _ => ContentVal.other⟩ = [] ∧
    applyEffects ⟨[some "old"], some ["h"], [["b"]]⟩
        (selectionEventEffects [⟨"K1", "Bug list", some fun _ => ContentVal.other⟩] 0)
        = ⟨[some (pad "Loading..." 1)], none, []⟩ :=
  unknown_content_keeps_loading ⟨"K1", "Bug list", some fun _ => ContentVal.other⟩
    (fun _ => ContentVal.other) rfl rfl [⟨"K1", "Bug list", some fun _ => ContentVal.other⟩] 0 rfl
    ⟨[some "old"], some ["h"], [["b"]]⟩
